import Mathlib

/-!
# Verification of the `doi-rs` DOI resolver library

A shallow embedding of the `doi` crate (`src/lib.rs`, `src/metadata.rs`)
in Lean 4, together with theorems settling the specification's claims.

Modelling conventions:
* Rust `Option<String>` becomes Lean `Option String`.
* Fallible Rust functions returning `Result<T, Box<dyn Error>>` become
  `Except DoiError T`; the opaque boxed errors are classified by their
  source into the inductive `DoiError` taxonomy of the spec.
* A Rust function that can panic (an `unwrap` on `None`) is embedded with
  an outer `Option`, where `none` models the panic.
* The HTTP transport (the `ureq` crate, an external dependency) is
  abstracted by the `UreqResult` type: the outcome of a single
  `agent.head(url).call()` / `agent.get(url).call()`.  `ureq` returns
  `Err(Status(code, response))` for a non-2xx terminal status and
  `Err(Transport ...)` for network-level failures; the response body's
  `serde_json` parse result is carried as an `Option Json` field.
-/

namespace DoiRs

/-- JSON values, mirroring `serde_json::Value`. -/
inductive Json where
  | null
  | bool (b : Bool)
  | num (n : Int)
  | str (s : String)
  | arr (elems : List Json)
  | obj (fields : List (String × Json))
deriving Repr

/-- The `serde_json` indexing `value[key]`: on an object, the value at `key`
(or `Null` when absent); on any non-object value, `Null`. -/
def Json.index (j : Json) (key : String) : Json :=
  match j with
  | .obj fields => ((fields.find? (fun kv => kv.1 == key)).map (fun kv => kv.2)).getD .null
  | _ => .null

/-- The `serde_json` method `Value::as_str`: `Some` exactly on string values. -/
def Json.as_str : Json → Option String
  | .str s => some s
  | _ => none

/-- The `serde_json` method `Value::as_array`: `Some` exactly on array values. -/
def Json.as_array : Json → Option (List Json)
  | .arr elems => some elems
  | _ => none

/-- The error taxonomy of the spec (§7), classifying the crate's boxed
errors by source: `notSet` for "DOI is not set", `transport code` for a
`ureq` non-2xx status error, `transportOther` for a network-level `ureq`
error, `parse` for a body that is not valid JSON. -/
inductive DoiError where
  | notSet
  | transport (code : Nat)
  | transportOther
  | parse
deriving Repr, DecidableEq

/-- The final HTTP response visible to the crate: the URL after all
redirects (`response.get_url()`), the raw body string
(`response.into_string()`), and the body's `serde_json` parse result
(`response.into_json()`, `none` when the body is not valid JSON). -/
structure HttpResponse where
  finalUrl : String
  bodyText : String
  bodyJson : Option Json
deriving Repr

/-- Outcome of one `ureq` call (`.head(url).call()` or
`.get(url).set("Accept", a).call()`), with redirects followed:
`success` is `Ok(response)` (terminal 2xx), `status code response` is
`Err(ureq::Error::Status(code, response))` (terminal non-2xx status),
and `transport` is `Err(ureq::Error::Transport(..))` (network / TLS /
redirect-loop failure, no response available). -/
inductive UreqResult where
  | success (resp : HttpResponse)
  | status (code : Nat) (resp : HttpResponse)
  | transport
deriving Repr

/-- The `Doi` struct: the identifier value.  The `agent : ureq::Agent`
field is transport configuration and carries no identity; it is not part
of the embedded state (every network call instead takes the call's
`UreqResult` outcome as an explicit argument). -/
structure Doi where
  doi : Option String
deriving Repr, DecidableEq

/-- Embeds `Doi::new`: stores the given string verbatim. -/
def Doi.new (doi : String) : Doi :=
  { doi := some doi }

/-- Embeds `Doi::default`: the DOI is `None`. -/
def Doi.default : Doi :=
  { doi := none }

/-- Embeds `Doi::is_set`: `self.doi.is_some()`. -/
def Doi.is_set (d : Doi) : Bool :=
  d.doi.isSome

/-- Embeds `Doi::get_doi`: the DOI string, or the "DOI is not set" error. -/
def Doi.get_doi (d : Doi) : Except DoiError String :=
  match d.doi with
  | some doi => .ok doi
  | none => .error .notSet

/-- Embeds `Doi::set_doi`: replaces the DOI unconditionally. -/
def Doi.set_doi (d : Doi) (doi : String) : Doi :=
  { d with doi := some doi }

/-- Embeds `Doi::https_url`:
`format!("https://doi.org/{}", self.doi.as_ref().unwrap())`.
The `unwrap()` panics when the DOI is `None`; the panic is modelled by
`none`. -/
def Doi.https_url (d : Doi) : Option String :=
  d.doi.map (fun doi => "https://doi.org/" ++ doi)

/-- Embeds `Doi::resolve`: issues a HEAD request to `https_url()` (panicking
there when the DOI is unset, modelled by the outer `none`) and matches
the outcome: `Ok(response) | Err(Status(418, response))` yield the final
URL; any other error is returned as an error value.  `out` is the
outcome of the one `agent.head(&url).call()`. -/
def Doi.resolve (d : Doi) (out : UreqResult) : Option (Except DoiError String) :=
  d.https_url.map (fun _ =>
    match out with
    | .success resp => .ok resp.finalUrl
    | .status 418 resp => .ok resp.finalUrl
    | .status code _ => .error (.transport code)
    | .transport => .error .transportOther)

/-- Embeds `impl PartialEq for Doi`: lowercase values equal, or both unset. -/
def Doi.eq (d1 d2 : Doi) : Bool :=
  match d1.doi, d2.doi with
  | some doi1, some doi2 => doi1.toLower == doi2.toLower
  | none, none => true
  | _, _ => false

/-- Embeds `DoiMetadataPerson` (metadata.rs): optional given, family, suffix. -/
structure DoiMetadataPerson where
  given : Option String
  family : Option String
  suffix : Option String
deriving Repr, DecidableEq

/-- Embeds `DoiMetadataPerson::default()`: all three fields `None`. -/
def DoiMetadataPerson.default : DoiMetadataPerson :=
  { given := none, family := none, suffix := none }

/-- Embeds `DoiMetadataPerson::full_name`: the eight-way match on
`(given, family, suffix)` from metadata.rs, space-joining the present
fields; `Err(())` when all three are `None`. -/
def DoiMetadataPerson.full_name (p : DoiMetadataPerson) : Except Unit String :=
  match p.given, p.family, p.suffix with
  | some given, some family, some suffix => .ok (given ++ " " ++ family ++ " " ++ suffix)
  | some given, some family, none => .ok (given ++ " " ++ family)
  | some given, none, some suffix => .ok (given ++ " " ++ suffix)
  | some given, none, none => .ok given
  | none, some family, some suffix => .ok (family ++ " " ++ suffix)
  | none, some family, none => .ok family
  | none, none, some suffix => .ok suffix
  | none, none, none => .error ()

/-- Embeds `DoiMetadataType` (metadata.rs): 44 named CSL variants plus the
catch-all `MISC` carrying an unrecognized tag verbatim. -/
inductive DoiMetadataType where
  | Article
  | ArticleJournal
  | ArticleMagazine
  | ArticleNewspaper
  | Bill
  | Book
  | Broadcast
  | Chapter
  | Classic
  | Collection
  | Dataset
  | Document
  | Entry
  | EntryDictionary
  | EntryEncyclopedia
  | Event
  | Figure
  | Graphic
  | Hearing
  | Interview
  | LegalCase
  | Legislation
  | Manuscript
  | Map
  | MotionPicture
  | MusicalScore
  | Pamphlet
  | PaperConference
  | Patent
  | Performance
  | Periodical
  | PersonalCommunication
  | Post
  | PostWeblog
  | Regulation
  | Report
  | Review
  | ReviewBook
  | Software
  | Song
  | Speech
  | Standard
  | Thesis
  | Treaty
  | Webpage
  | MISC (s : String)
deriving Repr, DecidableEq

/-- Embeds `DoiMetadataType::new`: exact, case-sensitive string lookup;
unmatched input becomes `MISC(s)`. -/
def DoiMetadataType.new (s : String) : DoiMetadataType :=
  match s with
  | "article" => .Article
  | "article-journal" => .ArticleJournal
  | "article-magazine" => .ArticleMagazine
  | "article-newspaper" => .ArticleNewspaper
  | "bill" => .Bill
  | "book" => .Book
  | "broadcast" => .Broadcast
  | "chapter" => .Chapter
  | "classic" => .Classic
  | "collection" => .Collection
  | "dataset" => .Dataset
  | "document" => .Document
  | "entry" => .Entry
  | "entry-dictionary" => .EntryDictionary
  | "entry-encyclopedia" => .EntryEncyclopedia
  | "event" => .Event
  | "figure" => .Figure
  | "graphic" => .Graphic
  | "hearing" => .Hearing
  | "interview" => .Interview
  | "legal_case" => .LegalCase
  | "legislation" => .Legislation
  | "manuscript" => .Manuscript
  | "map" => .Map
  | "motion_picture" => .MotionPicture
  | "musical_score" => .MusicalScore
  | "pamphlet" => .Pamphlet
  | "paper-conference" => .PaperConference
  | "patent" => .Patent
  | "performance" => .Performance
  | "periodical" => .Periodical
  | "personal_communication" => .PersonalCommunication
  | "post" => .Post
  | "post-weblog" => .PostWeblog
  | "regulation" => .Regulation
  | "report" => .Report
  | "review" => .Review
  | "review-book" => .ReviewBook
  | "software" => .Software
  | "song" => .Song
  | "speech" => .Speech
  | "standard" => .Standard
  | "thesis" => .Thesis
  | "treaty" => .Treaty
  | "webpage" => .Webpage
  | s => .MISC s

/-- Embeds `DoiMetadataType::as_str`: the string representation; `MISC(s)`
returns `s` unchanged. -/
def DoiMetadataType.as_str : DoiMetadataType → String
  | .Article => "article"
  | .ArticleJournal => "article-journal"
  | .ArticleMagazine => "article-magazine"
  | .ArticleNewspaper => "article-newspaper"
  | .Bill => "bill"
  | .Book => "book"
  | .Broadcast => "broadcast"
  | .Chapter => "chapter"
  | .Classic => "classic"
  | .Collection => "collection"
  | .Dataset => "dataset"
  | .Document => "document"
  | .Entry => "entry"
  | .EntryDictionary => "entry-dictionary"
  | .EntryEncyclopedia => "entry-encyclopedia"
  | .Event => "event"
  | .Figure => "figure"
  | .Graphic => "graphic"
  | .Hearing => "hearing"
  | .Interview => "interview"
  | .LegalCase => "legal_case"
  | .Legislation => "legislation"
  | .Manuscript => "manuscript"
  | .Map => "map"
  | .MotionPicture => "motion_picture"
  | .MusicalScore => "musical_score"
  | .Pamphlet => "pamphlet"
  | .PaperConference => "paper-conference"
  | .Patent => "patent"
  | .Performance => "performance"
  | .Periodical => "periodical"
  | .PersonalCommunication => "personal_communication"
  | .Post => "post"
  | .PostWeblog => "post-weblog"
  | .Regulation => "regulation"
  | .Report => "report"
  | .Review => "review"
  | .ReviewBook => "review-book"
  | .Software => "software"
  | .Song => "song"
  | .Speech => "speech"
  | .Standard => "standard"
  | .Thesis => "thesis"
  | .Treaty => "treaty"
  | .Webpage => "webpage"
  | .MISC s => s

/-- Embeds `DoiMetadata` (metadata.rs): the structured record. -/
structure DoiMetadata where
  doi : String
  title : Option String
  authors : Option (List DoiMetadataPerson)
  type : Option DoiMetadataType
deriving Repr, DecidableEq

/-- Embeds `DoiMetadata::new`: only the DOI is set, everything else `None`. -/
def DoiMetadata.new (doi : String) : DoiMetadata :=
  { doi := doi, title := none, authors := none, type := none }

/-- Embeds `Doi::metadata_call`: checks that the DOI is set via `get_doi()?`,
then issues the content-negotiated GET and propagates any `ureq` error
with `?` (no status code is special-cased here).  `out` is the outcome
of the one `agent.get(&self.https_url()).set("Accept", accept).call()`;
the `accept` header does not affect the error path and is not a
parameter of the embedding. -/
def Doi.metadata_call (d : Doi) (out : UreqResult) : Except DoiError HttpResponse := do
  let _ ← d.get_doi
  match out with
  | .success resp => pure resp
  | .status code _ => throw (.transport code)
  | .transport => throw .transportOther

/-- Embeds `Doi::metadata_json`: `metadata_call` then `into_json()`, mapping a
JSON parse failure to a parse error. -/
def Doi.metadata_json (d : Doi) (out : UreqResult) : Except DoiError Json := do
  let resp ← d.metadata_call out
  match resp.bodyJson with
  | some json => pure json
  | none => throw .parse

/-- Embeds `Doi::metadata_json_string`: `metadata_call` then `into_string()`. -/
def Doi.metadata_json_string (d : Doi) (out : UreqResult) : Except DoiError String := do
  let resp ← d.metadata_call out
  pure resp.bodyText

/-- Embeds `Doi::metadata_bibtex`: `metadata_call` (with the BibTeX accept
header) then `into_string()`. -/
def Doi.metadata_bibtex (d : Doi) (out : UreqResult) : Except DoiError String := do
  let resp ← d.metadata_call out
  pure resp.bodyText

/-- Embeds `Doi::metadata`: `get_doi()?`, then `metadata_json()?`, then the
field-by-field extraction from metadata.rs lines 276-295: `title` when
`json["title"]` is a string, `authors` when `json["author"]` is an
array (each element's `given`/`family`/`suffix` extracted independently
via `as_str`), `type` when `json["type"]` is a string (through
`DoiMetadataType::new`). -/
def Doi.metadata (d : Doi) (out : UreqResult) : Except DoiError DoiMetadata := do
  let doi ← d.get_doi
  let md0 := DoiMetadata.new doi
  let json ← d.metadata_json out
  let md1 :=
    match (json.index ("title")).as_str with
    | some title => { md0 with title := some title }
    | none => md0
  let md2 :=
    match (json.index ("author")).as_array with
    | some authors =>
        { md1 with authors := some (authors.map (fun author =>
            { given := (author.index ("given")).as_str
              family := (author.index ("family")).as_str
              suffix := (author.index ("suffix")).as_str })) }
    | none => md1
  let md3 :=
    match (json.index ("type")).as_str with
    | some ty => { md2 with type := some (DoiMetadataType.new ty) }
    | none => md2
  pure md3

/-! ## Spec-side definitions (for refinement-style claims) -/

/-- Spec-side (spec §4.2, Person.full_name): the present fields among
given, family, suffix, kept in that fixed order. -/
def DoiMetadataPerson.presentFields (p : DoiMetadataPerson) : List String :=
  [p.given, p.family, p.suffix].filterMap id

/-- Spec-side (spec §4.2): join a list of strings with single spaces. -/
def joinSpace : List String → String
  | [] => ""
  | [x] => x
  | x :: xs => x ++ " " ++ joinSpace xs

/-- The 44 recognized tag strings of `DoiMetadataType::new`, transcribed
from the match patterns of metadata.rs lines 131-175; an input is
"unmatched" exactly when it is not in this list. -/
def DoiMetadataType.namedTags : List String :=
  ["article", "article-journal", "article-magazine", "article-newspaper",
   "bill", "book", "broadcast", "chapter", "classic", "collection",
   "dataset", "document", "entry", "entry-dictionary", "entry-encyclopedia",
   "event", "figure", "graphic", "hearing", "interview", "legal_case",
   "legislation", "manuscript", "map", "motion_picture", "musical_score",
   "pamphlet", "paper-conference", "patent", "performance", "periodical",
   "personal_communication", "post", "post-weblog", "regulation", "report",
   "review", "review-book", "software", "song", "speech", "standard",
   "thesis", "treaty", "webpage"]

/-- Spec-side: the extraction `fetch_structured` is claimed to perform
on the fetched JSON value (spec §4.2): `title` from the string field
`title`, `authors` from the array field `author` with each person's
three sub-fields extracted independently, `type` through the
`DocumentType` lookup. -/
def extractRecord (doi : String) (json : Json) : DoiMetadata :=
  { doi := doi
    title := (json.index ("title")).as_str
    authors := (json.index ("author")).as_array |>.map (List.map (fun author =>
      { given := (author.index ("given")).as_str
        family := (author.index ("family")).as_str
        suffix := (author.index ("suffix")).as_str }))
    type := ((json.index ("type")).as_str).map DoiMetadataType.new }

/-! ## Helper lemmas -/

/-- An `Except` bind on a success short-circuits to the continuation. -/
theorem except_bind_ok {ε α β : Type} (a : α) (f : α → Except ε β) :
    (Except.ok a >>= f) = f a := rfl

/-- An `Except` bind on an error short-circuits to the error. -/
theorem except_bind_error {ε α β : Type} (e : ε) (f : α → Except ε β) :
    ((Except.error e : Except ε α) >>= f) = Except.error e := rfl

/-! ## Claims -/

/-- C1: for every set DOI, `resolve()` treats an HTTP 418 response from
the resolver exactly like a success — the final URL after redirects is
extracted and returned as `Ok`; every other non-success transport
outcome (network failure, other 4xx/5xx status) is returned as an error
value, never a panic. -/
theorem resolve_418_is_success (d : Doi) (h : d.is_set = true)
    (r : HttpResponse) (c : Nat) :
    d.resolve (.success r) = some (.ok r.finalUrl) ∧
    d.resolve (.status 418 r) = some (.ok r.finalUrl) ∧
    (c ≠ 418 → d.resolve (.status c r) = some (.error (.transport c))) ∧
    d.resolve .transport = some (.error .transportOther) := by
  obtain ⟨doi⟩ := d
  cases doi with
  | none => simp [Doi.is_set] at h
  | some s =>
    refine ⟨rfl, rfl, fun hc => ?_, rfl⟩
    unfold Doi.resolve Doi.https_url
    simp only [Option.map_some']

/-- Witness for C1 at a concrete set DOI, response and status code. -/
theorem resolve_418_is_success_witness :
    (Doi.new ("10.1109/TCSII.2024.3366282")).resolve
      (.status 404 ⟨"https://doi.org/x", "", none⟩) =
      some (.error (.transport 404)) :=
  (resolve_418_is_success (Doi.new ("10.1109/TCSII.2024.3366282")) rfl
    ⟨"https://doi.org/x", "", none⟩ 404).2.2.1 (by decide)

/-- C2 counterexample: on an unset Identifier, `https_url` does not
return a `NotSet` error value — the function's only non-value path is
the `unwrap()` panic on the absent DOI (modelled by `none`); there is
no error return in its type at all, so the claim's "fails with NotSet
(returns the error as a value rather than crashing)" is false at
`Doi::default()`. -/
theorem https_url_unset_panics : Doi.default.https_url = none := rfl

/-- C2 (amended): `https_url` returns exactly
`"https://doi.org/" ++ doi` — pure concatenation, no escaping — for
every Identifier whose DOI is set; when the DOI is absent the call
panics unwrapping the `None` instead of returning a `NotSet` error. -/
theorem https_url_concat (d : Doi) (s : String) :
    (d.doi = some s → d.https_url = some ("https://doi.org/" ++ s)) ∧
    (d.doi = none → d.https_url = none) := by
  constructor <;> intro h <;> simp [Doi.https_url, h]

/-- Witness for C2 at a concrete set DOI. -/
theorem https_url_concat_witness :
    (Doi.new ("10.1109/TCSII.2024.3366282")).https_url =
      some ("https://doi.org/10.1109/TCSII.2024.3366282") :=
  (https_url_concat (Doi.new ("10.1109/TCSII.2024.3366282"))
    "10.1109/TCSII.2024.3366282").1 rfl

/-- C3: for every JSON value that `metadata_json` (`fetch_json`)
returns, `metadata` (`fetch_structured`) produces exactly the record of
`extractRecord`: `title` from field `title` only if a string (else
`None`), `authors` from field `author` only if an array, with each
element's `given`/`family`/`suffix` extracted independently as optional
strings (a malformed element never aborts the rest); the extraction
step itself never produces an error — an error of `metadata` is always
the error of the underlying `metadata_json` call. -/
theorem metadata_extracts_record (d : Doi) (out : UreqResult)
    (s : String) (j : Json) (e : DoiError) :
    (d.doi = some s → d.metadata_json out = .ok j →
      d.metadata out = .ok (extractRecord s j)) ∧
    (d.metadata_json out = .error e → d.metadata out = .error e) := by
  obtain ⟨doi⟩ := d
  constructor
  · intro hs hj
    have hs' : doi = some s := hs
    subst hs'
    unfold Doi.metadata
    rw [show Doi.get_doi ⟨some s⟩ = Except.ok s from rfl]
    simp only [except_bind_ok]
    rw [hj]
    simp only [except_bind_ok]
    cases ht : (j.index ("title")).as_str <;>
      cases ha : (j.index ("author")).as_array <;>
        cases hy : (j.index ("type")).as_str <;>
          simp [extractRecord, DoiMetadata.new, pure, Except.pure, ht, ha, hy]
  · intro he
    cases doi with
    | none =>
      have h0 : Doi.metadata_json ⟨none⟩ out = Except.error .notSet := rfl
      rw [h0] at he
      injection he with h1
      subst h1
      rfl
    | some s0 =>
      unfold Doi.metadata
      rw [show Doi.get_doi ⟨some s0⟩ = Except.ok s0 from rfl]
      simp only [except_bind_ok]
      rw [he]
      simp only [except_bind_error]

/-- Witness for C3 at a concrete DOI and fetched JSON object. -/
theorem metadata_extracts_record_witness :
    (Doi.new ("10.1/A")).metadata
        (.success ⟨"https://doi.org/10.1/A", "",
          some (.obj [("title", .str ("T")),
                      ("author", .arr [.obj [("family", .str ("Jerry"))]])])⟩) =
      .ok (extractRecord ("10.1/A")
        (.obj [("title", .str ("T")),
               ("author", .arr [.obj [("family", .str ("Jerry"))]])])) :=
  (metadata_extracts_record (Doi.new ("10.1/A"))
    (.success ⟨"https://doi.org/10.1/A", "",
      some (.obj [("title", .str ("T")),
                  ("author", .arr [.obj [("family", .str ("Jerry"))]])])⟩)
    "10.1/A"
    (.obj [("title", .str ("T")),
           ("author", .arr [.obj [("family", .str ("Jerry"))]])])
    .parse).1 rfl rfl

/-- C4: `DoiMetadataType` round-trips through its string form:
`new (as_str x) = x` for every named (non-`MISC`) variant; every
unmatched string parses to `MISC s`; and `as_str (MISC s) = s`
verbatim, the lookup being exact and case-sensitive. -/
theorem type_roundtrip (x : DoiMetadataType) (s : String) :
    ((∀ t, x ≠ .MISC t) → DoiMetadataType.new x.as_str = x) ∧
    (s ∉ DoiMetadataType.namedTags → DoiMetadataType.new s = .MISC s) ∧
    (DoiMetadataType.MISC s).as_str = s := by
  refine ⟨fun hx => ?_, fun hs => ?_, rfl⟩
  · cases x <;> first | rfl | exact absurd rfl (hx _)
  · unfold DoiMetadataType.new
    split <;> first
      | rfl
      | simp [DoiMetadataType.namedTags] at hs

/-- Witness for C4 at the `Article` variant and an unrecognized tag. -/
theorem type_roundtrip_witness :
    DoiMetadataType.new DoiMetadataType.Article.as_str = .Article ∧
    DoiMetadataType.new ("nonsense-tag") = .MISC ("nonsense-tag") :=
  ⟨(type_roundtrip .Article ("nonsense-tag")).1 (fun t h => by cases h),
   (type_roundtrip .Article ("nonsense-tag")).2.1
     (by simp [DoiMetadataType.namedTags])⟩

/-- C5: `full_name` returns the present fields among given, family,
suffix joined by single spaces in exactly that fixed order, omitting
absent fields, and fails (the `EmptyName` error) if and only if all
three fields are absent. -/
theorem full_name_joins_present_fields (p : DoiMetadataPerson) :
    p.full_name =
      if p.presentFields = [] then .error ()
      else .ok (joinSpace p.presentFields) := by
  obtain ⟨g, f, sfx⟩ := p
  cases g <;> cases f <;> cases sfx <;>
    simp [DoiMetadataPerson.full_name, DoiMetadataPerson.presentFields,
      joinSpace, String.append_assoc]

/-- C6: two `Doi` values are equal exactly when both DOIs are set and
equal under case-insensitive (lowercase) comparison, or both are unset;
a set and an unset value are never equal. -/
theorem doi_eq_iff (d1 d2 : Doi) :
    Doi.eq d1 d2 = true ↔
      ((∃ s1 s2, d1.doi = some s1 ∧ d2.doi = some s2 ∧
          s1.toLower = s2.toLower) ∨
       (d1.doi = none ∧ d2.doi = none)) := by
  obtain ⟨doi1⟩ := d1
  obtain ⟨doi2⟩ := d2
  cases doi1 <;> cases doi2 <;> simp [Doi.eq]

/-- C7: every metadata fetch operation (`metadata_call`,
`metadata_json`, `metadata_json_string`, `metadata_bibtex`, `metadata`)
fails with `NotSet` when the DOI is unset, whatever the network outcome
would have been (the check precedes the request); on a set DOI, a
non-2xx status outcome — including 418, which is not special-cased
here — is a transport error for all of them. -/
theorem metadata_ops_notset_and_status (d : Doi) (out : UreqResult)
    (c : Nat) (r : HttpResponse) :
    (d.is_set = false →
      d.metadata_call out = .error .notSet ∧
      d.metadata_json out = .error .notSet ∧
      d.metadata_json_string out = .error .notSet ∧
      d.metadata_bibtex out = .error .notSet ∧
      d.metadata out = .error .notSet) ∧
    (d.is_set = true →
      d.metadata_call (.status c r) = .error (.transport c) ∧
      d.metadata_json (.status c r) = .error (.transport c) ∧
      d.metadata_json_string (.status c r) = .error (.transport c) ∧
      d.metadata_bibtex (.status c r) = .error (.transport c) ∧
      d.metadata (.status c r) = .error (.transport c)) := by
  obtain ⟨doi⟩ := d
  cases doi with
  | none =>
    exact ⟨fun _ => ⟨rfl, rfl, rfl, rfl, rfl⟩, fun h => by simp [Doi.is_set] at h⟩
  | some s =>
    exact ⟨fun h => by simp [Doi.is_set] at h, fun _ => ⟨rfl, rfl, rfl, rfl, rfl⟩⟩

/-- Witness for C7: an unset DOI yields `NotSet` even on a success
outcome, and a set DOI with a 418 status outcome yields a transport
error from `metadata_json`. -/
theorem metadata_ops_notset_and_status_witness :
    Doi.default.metadata_json (.success ⟨"https://doi.org/x", "", none⟩) =
      .error .notSet ∧
    (Doi.new ("10.1/A")).metadata_json
        (.status 418 ⟨"https://doi.org/x", "", none⟩) =
      .error (.transport 418) :=
  ⟨((metadata_ops_notset_and_status Doi.default
      (.success ⟨"https://doi.org/x", "", none⟩) 418
      ⟨"https://doi.org/x", "", none⟩).1 rfl).2.1,
   ((metadata_ops_notset_and_status (Doi.new ("10.1/A")) .transport 418
      ⟨"https://doi.org/x", "", none⟩).2 rfl).2.1⟩

/-- C8: construction stores the string verbatim and `get_doi` returns
exactly it: `Doi::new(s).get_doi() == Ok(s)` for every string `s`. -/
theorem new_get_verbatim (s : String) : (Doi.new s).get_doi = .ok s := rfl

/-- C9 (implicit reverse round-trip): for every string `s`,
`as_str (new s) = s` — each recognized tag maps to the variant whose
string form is that same tag, and unrecognized tags are carried through
`MISC` verbatim. -/
theorem parse_as_str_roundtrip (s : String) :
    (DoiMetadataType.new s).as_str = s := by
  unfold DoiMetadataType.new
  split <;> simp_all [DoiMetadataType.as_str]

/-- C10: the empty string is a valid set DOI — `Doi::new("")` is set
and `get_doi` succeeds returning `""`; construction never treats any
input string as unset. -/
theorem new_empty_string_is_set :
    (Doi.new ("")).is_set = true ∧ (Doi.new ("")).get_doi = .ok ("") ∧
    ∀ s : String, (Doi.new s).is_set = true :=
  ⟨rfl, rfl, fun _ => rfl⟩

end DoiRs
